import Mathlib

/-!
Verification of the conversation-routing core of the whatsapp_eats_backend
repository (files whatsapp_bot/bot_blueprint.py and whatsapp_bot/ai_router.py),
as a shallow embedding in Lean.  Python strings are modelled as Lean strings,
Python ints as Int (arbitrary precision in both languages), dicts used as
per-key stores as association lists, and fallible calls as explicit outcome
parameters.  Each definition mirrors one Python function of the source; claim
theorems follow at the end of the file.
-/

namespace WhatsAppBot

/-! ### Python string primitives -/

/-- Characters removed by Python str.strip() with no argument (whitespace).
Modelled by Char.isWhitespace, which covers the whitespace characters that
occur in this codebase. -/
def pyWs (c : Char) : Bool := c.isWhitespace

/-- str.strip() on a list of characters: drop whitespace from both ends. -/
def stripChars (cs : List Char) : List Char :=
  ((cs.dropWhile pyWs).reverse.dropWhile pyWs).reverse

/-- Python str.strip(). -/
def pyStrip (s : String) : String := ⟨stripChars s.data⟩

/-- Python str.lower() (ASCII case mapping suffices for this codebase). -/
def pyLower (s : String) : String := ⟨s.data.map Char.toLower⟩

/-- Python str.upper() (ASCII case mapping suffices for this codebase). -/
def pyUpper (s : String) : String := ⟨s.data.map Char.toUpper⟩

/-- Helper for the Python substring operator: needle occurs in hay. -/
def listContains (needle : List Char) : List Char → Bool
  | [] => needle.isEmpty
  | c :: rest => needle.isPrefixOf (c :: rest) || listContains needle rest

/-- Python operator needle in hay on strings (substring containment). -/
def strContains (hay needle : String) : Bool := listContains needle.data hay.data

/-- Python s.startswith(pre) (String.startsWith does not reduce in the
kernel, so prefix testing is defined on the character lists). -/
def pyStartsWith (s pre : String) : Bool := pre.data.isPrefixOf s.data

/-- Python s[n:] (all characters from index n). -/
def pyDrop (s : String) (n : Nat) : String := ⟨s.data.drop n⟩

/-- Python s[:n] (the first n characters). -/
def pyTake (s : String) (n : Nat) : String := ⟨s.data.take n⟩

/-- Worker for Python str.split(sep, maxsplit): budget counts remaining
splits; once it reaches zero the separator is kept inside the final chunk. -/
def splitSepAux (sep : Char) : List Char → Nat → List Char → List (List Char)
  | [], _, acc => [acc.reverse]
  | c :: cs, n, acc =>
    if c = sep then
      match n with
      | 0 => splitSepAux sep cs 0 (c :: acc)
      | m + 1 => acc.reverse :: splitSepAux sep cs m []
    else splitSepAux sep cs n (c :: acc)

/-- Python s.split(sep, maxsplit) for a one-character separator. -/
def pySplitCh (sep : Char) (maxsplit : Nat) (s : String) : List String :=
  (splitSepAux sep s.data maxsplit []).map (fun cs => ⟨cs⟩)

/-- Python s.split(sep) (unbounded) for a one-character separator: a budget of
s.length splits can never be exhausted. -/
def pySplitAll (sep : Char) (s : String) : List String :=
  pySplitCh sep s.data.length s

/-! ### Decimal numerals: Python str(int) and int(str) -/

/-- The decimal digit character for a value below ten. -/
def digitChar (n : Nat) : Char :=
  if n = 0 then '0' else if n = 1 then '1' else if n = 2 then '2' else if n = 3 then '3'
  else if n = 4 then '4' else if n = 5 then '5' else if n = 6 then '6' else if n = 7 then '7'
  else if n = 8 then '8' else '9'

/-- Decimal digit characters, most significant first; fuel-based structural
recursion (any fuel above the value itself is enough, see natDigitsAux_spec). -/
def natDigitsAux : Nat → Nat → List Char
  | 0, _ => []
  | fuel + 1, n =>
    if n < 10 then [digitChar n] else natDigitsAux fuel (n / 10) ++ [digitChar (n % 10)]

/-- Decimal digit characters of a natural number, most significant first. -/
def natDigits (n : Nat) : List Char := natDigitsAux (n + 1) n

/-- Python str(n) for a natural number. -/
def pyStrNat (n : Nat) : String := ⟨natDigits n⟩

/-- Python str(i) for an integer. -/
def pyStrInt (i : Int) : String :=
  if i < 0 then ⟨'-' :: natDigits i.natAbs⟩ else pyStrNat i.toNat

/-- Numeric value of a decimal digit character. -/
def digVal (c : Char) : Nat := c.toNat - 48

/-- Value of a list of decimal digit characters, most significant first. -/
def digitsVal (cs : List Char) : Nat := cs.foldl (fun a c => a * 10 + digVal c) 0

/-- No two consecutive underscores (part of the Python int() literal rules). -/
def noConsecUnderscore : List Char → Bool
  | c :: d :: rest => !(c = '_' && d = '_') && noConsecUnderscore (d :: rest)
  | _ => true

/-- Python int() digit-group parsing (after sign removal): non-empty, digits
with optional single underscores strictly between digits. -/
def pyDigits? (cs : List Char) : Option Nat :=
  if !cs.isEmpty
      && cs.all (fun c => c.isDigit || c = '_')
      && cs.head?.any Char.isDigit
      && cs.getLast?.any Char.isDigit
      && noConsecUnderscore cs then
    some (digitsVal (cs.filter Char.isDigit))
  else none

/-- Python int(s) on a string: strips whitespace, admits one optional sign,
then a digit group; returns none where Python raises ValueError. -/
def pyInt? (s : String) : Option Int :=
  let cs := stripChars s.data
  if cs.head? = some '-' then (pyDigits? cs.tail).map (fun n => -(Int.ofNat n))
  else if cs.head? = some '+' then (pyDigits? cs.tail).map (fun n => Int.ofNat n)
  else (pyDigits? cs).map (fun n => Int.ofNat n)

/-- bot_blueprint._safe_int restricted to string-or-missing input, which is the
only way the routing code calls it: missing value or a string that strips to
one of the spelled null forms gives the default, otherwise int() is attempted
and a parse failure also gives the default. -/
def _safe_int : Option String → Option Int → Option Int
  | none, dflt => dflt
  | some v, dflt =>
    let s := pyStrip v
    if s = "" ∨ s = "None" ∨ s = "null" then dflt
    else match pyInt? s with
      | some n => some n
      | none => dflt

/-! ### The postback command codec (bot_blueprint._parse_cmd and _cmd)

The Python decoder returns a 5-tuple whose numeric fields may be None; the
arg slot may hold an int, or the literal strings "" and "None" passed through
verbatim, so it is modelled as Option (Int + String). -/

/-- bot_blueprint._parse_cmd: strip, split on the pipe with maxsplit 4,
require exactly 5 fields with a CART head, then best-effort numeric parses.
The Python function takes arbitrary objects and rejects non-strings; only the
string case is modelled, which is the only way the handlers call it. -/
def _parse_cmd (s : String) :
    Bool × Option String × Option Int × Option Int × Option (Int ⊕ String) :=
  match pySplitCh '|' 4 (pyStrip s) with
  | [t, action, i, v, arg] =>
    if t = "CART" then
      (true, some action, _safe_int (some i) none, _safe_int (some v) none,
        if arg = "" ∨ arg = "None" then some (Sum.inr arg)
        else match _safe_int (some arg) none with
          | some nval => some (Sum.inl nval)
          | none => none)
    else (false, none, none, none, none)
  | _ => (false, none, none, none, none)

/-- bot_blueprint._cmd: encode a postback token as 5 pipe-joined fields, with
missing item and variant ids defaulting to 0.  The arg parameter is int-or-str
in the source and is modelled as a sum. -/
def _cmd (action : String) (item_id : Option Int) (variant_id : Option Int)
    (arg : Int ⊕ String) : String :=
  let safe_item := item_id.getD 0
  let safe_variant := variant_id.getD 0
  let argStr := match arg with
    | Sum.inl nval => pyStrInt nval
    | Sum.inr sval => sval
  "CART|" ++ action ++ "|" ++ pyStrInt safe_item ++ "|" ++ pyStrInt safe_variant ++ "|" ++ argStr

/-! ### Dedup store (bot_blueprint._claim_once)

The module-level dict _seen maps a composed key to an absolute expiry time;
it is modelled as an insertion-ordered association list (Python dicts preserve
insertion order, pop preserves the order of survivors).  time.time() values
are modelled as Nat seconds. -/

/-- The dedup key: provider message id when present, else a hash of the
payload (the hash value is taken as a parameter). -/
def dedupKey (kind waId : String) (msgId : Option String) (payloadHash : Int) : String :=
  match msgId with
  | some m => "dedupe:" ++ kind ++ ":" ++ waId ++ ":" ++ m
  | none => "dedupe:" ++ kind ++ ":" ++ waId ++ ":" ++ pyStrInt payloadHash

/-- bot_blueprint._claim_once: occasional sweep (only when the dict is
non-empty and its size is a multiple of 100), then a plain membership test
that does NOT consult the stored expiry, then insert with expiry now + ttl.
Returns the claim result and the updated store. -/
def _claim_once (kind waId : String) (msgId : Option String) (payloadHash : Int)
    (now ttl : Nat) (seen : List (String × Nat)) : Bool × List (String × Nat) :=
  let key := dedupKey kind waId msgId payloadHash
  let seen1 := if seen ≠ [] ∧ seen.length % 100 = 0
    then seen.filter (fun kv => !(kv.2 < now)) else seen
  if seen1.any (fun kv => kv.1 = key) then (false, seen1)
  else (true, seen1 ++ [(key, now + ttl)])

/-! ### The structured-intent classifier wrapper (ai_router.llm_route)

ai_router.ParsedOrder is a pydantic model; construction validates the action
and fulfillment Literal enums and raises on violation.  The OpenAI call, the
tool-call extraction, json.loads and the pydantic construction can each fail;
all failures land in the same except-clause, so the attempt is modelled as
either one of three failure stages or a parsed candidate that still has to
pass validation.  budget_kes is a Python float carrying JSON numbers; it is
modelled as a rational. -/

structure LineItem where
  item_id : Option String := none
  item_name : Option String := none
  qty : Int := 1
  options : List (String × String) := []
deriving DecidableEq

structure ParsedOrder where
  action : String
  items : List LineItem := []
  target_item_name : Option String := none
  target_item_id : Option String := none
  target_variant_name : Option String := none
  target_variant_id : Option String := none
  new_qty : Option Int := none
  new_variant_name : Option String := none
  new_variant_id : Option String := none
  note_text : Option String := none
  budget_kes : Option Rat := none
  dietary : List String := []
  spice_level : Option String := none
  fulfillment : Option String := none
  delivery_address : Option String := none
  order_code : Option String := none
  clarifications : List String := []
  reasoning_notes : Option String := none
  response_text : Option String := none
deriving DecidableEq

/-- The action Literal of ai_router.ParsedOrder. -/
def parsedActionEnum : List String :=
  ["ADD_TO_CART", "SHOW_MENU", "ASK_QUESTION", "CHECKOUT",
   "ORDER_STATUS", "VIEW_CART", "CLEAR_CART", "SMALL_TALK",
   "EDIT_SET_QTY", "EDIT_REMOVE", "EDIT_CHANGE_VARIANT", "EDIT_SET_NOTE"]

/-- Pydantic validation of the Literal-typed fields of ParsedOrder. -/
def validParsedOrder (p : ParsedOrder) : Bool :=
  parsedActionEnum.contains p.action &&
    (match p.fulfillment with
     | none => true
     | some f => f = "pickup" || f = "delivery")

/-- Outcome of the try-block of llm_route before validation. -/
inductive ClassifierAttempt where
  | transportError
  | noToolCall
  | badJson
  | parsed (p : ParsedOrder)
deriving DecidableEq

/-- The sentinel ParsedOrder built in the except-clause of llm_route. -/
def fallbackParsedOrder : ParsedOrder :=
  { action := "SMALL_TALK", items := [], clarifications := [],
    response_text :=
      some "Sorry, I didn\x27t catch that. Could you try again or ask for the menu?" }

/-- ai_router.llm_route: any failure in the chat call, tool-call extraction,
JSON parse or schema validation is caught and replaced by the sentinel. -/
def llm_route (attempt : ClassifierAttempt) : ParsedOrder :=
  match attempt with
  | ClassifierAttempt.parsed p => if validParsedOrder p then p else fallbackParsedOrder
  | _ => fallbackParsedOrder

/-! ### Menu data and the recommendation engine
    (bot_blueprint._send_recommendations)

Menu items carry an integer price (the code coerces with int(...)).  The
engine lowercases the user text and the classifier hint once, builds a pool,
applies keyword-triggered filters, and sorts with the stable Python sort,
modelled by List.insertionSort (stable sorting is unique, so any stable sort
models sorted with a key function). -/

structure MenuItem where
  id : Int
  name : String
  price : Int
  tags : List String := []
deriving DecidableEq

structure MenuCat where
  name : String
  items : List MenuItem
deriving DecidableEq

structure RecItem where
  name : String
  price : Int
  tags : List String
  popular : Bool
deriving DecidableEq

/-- Tags that mark an item popular. -/
def popularTagWords : List String := ["popular", "best", "signature", "favourite"]

/-- The item-collection loop at the top of _send_recommendations: flatten the
categories, lowercase the tags, precompute the popular flag. -/
def buildRecItems (menu : List MenuCat) : List RecItem :=
  menu.flatMap (fun cat => cat.items.map (fun item =>
    let tags := item.tags.map pyLower
    { name := item.name, price := item.price, tags := tags,
      popular := popularTagWords.any (fun t => tags.contains t) }))

def vegKeywords : List String := ["veg", "vegetarian", "no meat"]

def spicyKeywords : List String := ["spicy", "hot", "peri", "chilli"]

def budgetKeywords : List String := ["under", "below", "max", "cheaper than"]

def popularKeywords : List String :=
  ["popular", "best", "good", "recommend", "your favorite", "signature"]

/-- any(w in s for w in kws). -/
def kwHit (s : String) (kws : List String) : Bool := kws.any (fun w => strContains s w)

/-- Dietary filter, triggered by veg keywords in text+hint. -/
def dietStep (recs : List RecItem) (tl hint : String) : List RecItem :=
  if kwHit (tl ++ hint) vegKeywords then
    recs.filter (fun i => i.tags.contains "vegetarian" || i.tags.contains "veg")
  else recs

/-- Spice filter, triggered by spice keywords in text+hint. -/
def spiceStep (recs : List RecItem) (tl hint : String) : List RecItem :=
  if kwHit (tl ++ hint) spicyKeywords then recs.filter (fun i => i.tags.contains "spicy")
  else recs

/-- int of the concatenation of every digit character of the string
(int(join(filter(isdigit, s)))); none when there is no digit and Python
raises. -/
def extractBudget (s : String) : Option Int :=
  let ds := s.data.filter Char.isDigit
  if ds.isEmpty then none else some (Int.ofNat (digitsVal ds))

/-- Budget filter: trigger keywords are checked in the user text only, the
digits are taken from text+hint, and a parse failure skips the filter. -/
def budgetStep (recs : List RecItem) (tl hint : String) : List RecItem :=
  if kwHit tl budgetKeywords then
    match extractBudget (tl ++ hint) with
    | some b => recs.filter (fun i => i.price ≤ b)
    | none => recs
  else recs

/-- Python sorted(key price) as a relation. -/
def priceLE (x y : RecItem) : Prop := x.price ≤ y.price

instance : DecidableRel priceLE := fun x y => inferInstanceAs (Decidable (x.price ≤ y.price))

instance : IsTotal RecItem priceLE := ⟨fun a b => le_total a.price b.price⟩

instance : IsTrans RecItem priceLE := ⟨fun _ _ _ hab hbc => le_trans hab hbc⟩

/-- Popularity filter with the cheap-6 fallback:
recs = filter popular or sorted(recs, key price)[:6]. -/
def popularityStep (recs : List RecItem) (tl hint : String) : List RecItem :=
  if kwHit (tl ++ hint) popularKeywords then
    let pop := recs.filter (fun i => i.popular)
    if pop.isEmpty then (recs.insertionSort priceLE).take 6 else pop
  else recs

/-- The pool after the dietary, spice and budget filters, before the
popularity step. -/
def prePopularityPool (items : List RecItem) (tl hint : String) : List RecItem :=
  budgetStep (spiceStep (dietStep items tl hint) tl hint) tl hint

/-- First component of the final sort key (-popular as an integer). -/
def popRank (x : RecItem) : Int := if x.popular then -1 else 0

/-- Python sorted(key (-popular, price)) as a lexicographic relation. -/
def finalLE (x y : RecItem) : Prop :=
  popRank x < popRank y ∨ (popRank x = popRank y ∧ x.price ≤ y.price)

instance : DecidableRel finalLE := fun x y =>
  inferInstanceAs (Decidable (popRank x < popRank y ∨
    (popRank x = popRank y ∧ x.price ≤ y.price)))

instance : IsTotal RecItem finalLE := ⟨by
  intro a b
  unfold finalLE
  rcases lt_trichotomy (popRank a) (popRank b) with h | h | h
  · exact Or.inl (Or.inl h)
  · rcases le_total a.price b.price with hp | hp
    · exact Or.inl (Or.inr ⟨h, hp⟩)
    · exact Or.inr (Or.inr ⟨h.symm, hp⟩)
  · exact Or.inr (Or.inl h)⟩

instance : IsTrans RecItem finalLE := ⟨by
  intro a b c hab hbc
  unfold finalLE at hab hbc ⊢
  rcases hab with h1 | ⟨h1, h1p⟩ <;> rcases hbc with h2 | ⟨h2, h2p⟩
  · exact Or.inl (lt_trans h1 h2)
  · exact Or.inl (h2 ▸ h1)
  · exact Or.inl (h1 ▸ h2)
  · exact Or.inr ⟨h1.trans h2, le_trans h1p h2p⟩⟩

/-- The full filter-and-rank pipeline of _send_recommendations: lowercase both
inputs, run the four keyword-triggered steps, stable-sort by (-popular, price)
and truncate to 6. -/
def recommendFinal (items : List RecItem) (userText aiHint : String) : List RecItem :=
  let tl := pyLower userText
  let hint := pyLower aiHint
  ((popularityStep (prePopularityPool items tl hint) tl hint).insertionSort finalLE).take 6

/-- The outbound text assembled from a non-empty recommendation list. -/
def renderRecLines (recs : List RecItem) : String :=
  String.intercalate "\n" ("Here are my top picks for you:" ::
    (recs.map (fun r => "• " ++ r.name ++ " — KSh " ++ pyStrInt r.price) ++
      ["\nJust say the name to add it"]))

/-! ### Spec-side budget definition for the refinement comparison in C8 -/

/-- Maximal digit runs of a character list, in order. -/
def digitRunsAux : List Char → List Char → List (List Char)
  | [], cur => if cur.isEmpty then [] else [cur.reverse]
  | c :: cs, cur =>
    if c.isDigit then digitRunsAux cs (c :: cur)
    else if cur.isEmpty then digitRunsAux cs [] else cur.reverse :: digitRunsAux cs []

/-- The first longest entry of a list of runs. -/
def longestRun : List (List Char) → Option (List Char)
  | [] => none
  | r :: rs =>
    match longestRun rs with
    | none => some r
    | some b => if b.length > r.length then some b else some r

/-- Modelled from the spec: the budget as the numeric value of the longest
contiguous run of digit characters of the string ("numeric token extracted
from text+hint via longest contiguous digit run").  This is the spec-side
definition that C8 compares against the code-side extractBudget. -/
def budgetSpecLongestRun (s : String) : Option Int :=
  (longestRun (digitRunsAux s.data [])).map (fun r => Int.ofNat (digitsVal r))

/-! ### The intent router (bot_blueprint._route_text) and its effects

The router is modelled as a function from the inbound text and an environment
of backend-call outcomes to the list of effects it performs, in order.  An
effect is an outbound send or a backend call.  _send_cart only reads the cart
and sends text, so it is kept as a single effect; time.sleep and the print
logging are not effects of interest.  The wa_id and profile name only flow
into message text and backend calls and are omitted from the effect payloads
where the claims do not inspect them. -/

inductive CartOp where
  | removeOp (item_id : Int)
  | setQty (item_id : Int) (qty : Int)
  | setNote (item_id : Int) (variant_id : Option Int) (note : String)
deriving DecidableEq

inductive Effect where
  | sendText (msg : String)
  | sendCartSummary (pre : String)
  | sendMenuList
  | sendDocument (url : String) (caption : String)
  | addToCart (itemId : Int) (qty : Int)
  | updateCart (ops : List CartOp)
  | clearCartCall
  | checkoutCall (method : String)
  | fetchOrderCall (code : String)
  | llmCall (bindOk : Bool)
deriving DecidableEq

/-- The backend calls that mutate cart or order state (add_to_cart,
update_cart, clear_cart, checkout). -/
def cartMutating : Effect → Bool
  | Effect.addToCart _ _ => true
  | Effect.updateCart _ => true
  | Effect.clearCartCall => true
  | Effect.checkoutCall _ => true
  | _ => false

structure CartLine where
  item_id : Int
  name : String
  qty : Int
  price : Int
deriving DecidableEq

/-- Outcomes of the external collaborators for one inbound unit of work:
none models a call that raises. -/
structure Env where
  cart : Option (List CartLine)
  menu : List MenuCat
  pdfUrls : List String
  checkoutOk : Option String
  orderStatus : String → Option String
  classifierReply : String

/-- The Python parameter list of ai_router.llm_route: name and
has-a-default flag. -/
def llmRouteParams : List (String × Bool) :=
  [("user_text", false), ("menu_snapshot", false), ("user_profile", false),
   ("cart_snapshot", false), ("menu_text", true)]

/-- Python call binding: every keyword argument must name a parameter not
already bound positionally, and every parameter without a default must be
bound.  A false result is a TypeError at call time. -/
def pyCallOk (params : List (String × Bool)) (npos : Nat) (kwargs : List String) : Bool :=
  npos ≤ params.length &&
  kwargs.all (fun k => (params.map Prod.fst).contains k) &&
  kwargs.all (fun k => !(((params.take npos).map Prod.fst).contains k)) &&
  (params.drop npos).all (fun p => p.2 || kwargs.contains p.1)

/-- Whether the call llm_route(prompt, max_tokens=40, temperature=0.0) in
_route_text binds against the signature of llm_route. -/
def llmCallBindsOk : Bool := pyCallOk llmRouteParams 1 ["max_tokens", "temperature"]

def checkoutTriggerWords : List String :=
  ["checkout", "pay", "place order", "i\x27m ready", "complete", "done", "yes"]

def cartViewWords : List String := ["cart", "my order", "what i have", "show me", "show cart"]

/-- bot_blueprint._do_checkout: the backend checkout call, then the success
text with the order code, or the failure text when the call raises
(update_last_order is best-effort and sends nothing). -/
def doCheckoutEffects (env : Env) : List Effect :=
  match env.checkoutOk with
  | some code => [Effect.checkoutCall "pickup",
      Effect.sendText ("🎉 Order placed! Code: *" ++ code ++ "*\nWe\u2019ll confirm shortly.")]
  | none => [Effect.checkoutCall "pickup",
      Effect.sendText "Checkout failed. Please try again or send *help*."]

/-- The order-status fast path: strip every literal status from the lowered
text; a non-empty remainder is looked up, any failure becomes the
not-found text; an empty remainder sends nothing. -/
def statusEffects (env : Env) (tl : String) : List Effect :=
  let code := pyStrip (tl.replace "status" "")
  if code ≠ "" then
    match env.orderStatus code with
    | some st => [Effect.fetchOrderCall code,
        Effect.sendText ("Order *" ++ code ++ "* is *" ++ pyUpper st ++ "* right now.")]
    | none => [Effect.fetchOrderCall code,
        Effect.sendText "I can\x27t find that order. Check the code and try again."]
  else []

/-- Cart lines for the REMOVE and CHANGE branches.  These branches are only
reachable with a non-empty classifier reply; the Python builds a
lowercased-name dict and takes the first generator hit, modelled as the first
line whose lowered name contains the needle (identical when names are
distinct; a raising get_cart in these dead branches is not modelled). -/
def cartItemsOf (env : Env) : List CartLine := env.cart.getD []

def findCartMatch (items : List CartLine) (needle : String) : Option CartLine :=
  items.find? (fun it => strContains (pyLower it.name) needle)

/-- The ADD branch menu scan: every item of every category whose lowered name
contains the parsed item text. -/
def menuMatches (menu : List MenuCat) (needle : String) : List MenuItem :=
  (menu.flatMap (fun c => c.items)).filter (fun it => strContains (pyLower it.name) needle)

/-- bot_blueprint._send_recommendations as one outbound effect. -/
def sendRecommendationsEffect (menu : List MenuCat) (userText aiHint : String) : Effect :=
  match recommendFinal (buildRecItems menu) userText aiHint with
  | [] => Effect.sendText "Hmm, nothing matches right now. Try saying *menu*"
  | recs => Effect.sendText (renderRecLines recs)

/-- The action chain of _route_text on the upper-cased classifier reply. -/
def dispatchClassifier (env : Env) (text response : String) : List Effect :=
  let resp := pyUpper response
  if pyStartsWith resp "ADD " then
    let item := pyLower (pyStrip ((pySplitAll '×' (pyDrop response 4)).headD ""))
    let qty : Int :=
      if strContains response "×" then
        match pyInt? (pyStrip ((pySplitAll '×' response).getD 1 "")) with
        | some q => q
        | none => 1
      else 1
    match menuMatches env.menu item with
    | [] => [Effect.sendText
        ("Sorry, I don\x27t have \x27" ++ item ++ "\x27. Say *menu* to see everything.")]
    | m :: _ => [Effect.addToCart m.id qty,
        Effect.sendText ("Got it! Added " ++ pyStrInt qty ++ " × " ++ m.name),
        Effect.sendCartSummary "Your updated cart:\n"]
  else if pyStartsWith resp "REMOVE " then
    let item := pyLower (pyStrip (pyDrop response 7))
    match findCartMatch (cartItemsOf env) item with
    | some m => [Effect.updateCart [CartOp.removeOp m.item_id],
        Effect.sendText ("Removed " ++ m.name ++ " from your cart"),
        Effect.sendCartSummary ""]
    | none => []
  else if pyStartsWith resp "CHANGE " then
    match (pyDrop response 7).splitOn " TO ×" with
    | [p0, p1] =>
      let item := pyLower (pyStrip p0)
      match pyInt? (pyStrip p1) with
      | some q =>
        match findCartMatch (cartItemsOf env) item with
        | some m => [Effect.updateCart [CartOp.setQty m.item_id q],
            Effect.sendText ("Updated to " ++ pyStrInt q ++ " × " ++ m.name),
            Effect.sendCartSummary ""]
        | none => []
      | none => []
    | _ => []
  else if strContains resp "CART" then [Effect.sendCartSummary ""]
  else if strContains resp "MENU" then
    match env.pdfUrls with
    | u :: _ => [Effect.sendText "Here\u2019s our full menu", Effect.sendDocument u "QuickBite Menu"]
    | [] => [Effect.sendText "Here\u2019s what we have today", Effect.sendMenuList]
  else if strContains resp "CHECKOUT" || strContains resp "YES" then doCheckoutEffects env
  else if pyStartsWith resp "RECOMMEND" then [sendRecommendationsEffect env.menu text response]
  else [Effect.sendText "Got it! Anything else you\x27d like?", Effect.sendCartSummary ""]

/-- bot_blueprint._route_text: the fast-path tier in its fixed order, then
the classifier tier.  The classifier call is recorded as an effect carrying
its binding outcome; since the call in the source passes max_tokens and
temperature, which llm_route does not accept, the call raises TypeError
inside the try and the reply falls back to the empty string.  The tier-2
preamble also reads the cart to build a prompt; the prompt is consumed only
by the failing call and is not modelled. -/
def _route_text (env : Env) (text : String) : List Effect :=
  let tl := pyLower (pyStrip text)
  if kwHit tl checkoutTriggerWords then doCheckoutEffects env
  else if pyStartsWith tl "status" then statusEffects env tl
  else if kwHit tl cartViewWords then [Effect.sendCartSummary ""]
  else
    Effect.llmCall llmCallBindsOk ::
      dispatchClassifier env text (if llmCallBindsOk then pyStrip env.classifierReply else "")

/-- A concrete environment for closed instantiations. -/
def env0 : Env :=
  { cart := some [], menu := [], pdfUrls := [], checkoutOk := some "A1",
    orderStatus := fun _ => none, classifierReply := "" }

/-! ### Conversation state and the note-capture flow
    (bot_blueprint.handle_note_message and the text branch of inbound) -/

/-- One user state record of _user_states; absence of a record is modelled by
none at the use sites. -/
structure UState where
  mode : String
  item_id : Option Int
  variant_id : Option Int
deriving DecidableEq

/-- Result of handle_note_message: whether the update_cart call raised
(propagating to the webhook catch-all), the boolean the function returns when
it does not raise, the state store afterwards, and the effects performed. -/
structure NoteOutcome where
  raised : Bool
  handled : Bool
  state : Option UState
  effects : List Effect
deriving DecidableEq

/-- bot_blueprint.handle_note_message for one sender whose stored state is
given (none = no record, so state.get gives no mode).  updOk gives the
outcome of the update_cart call; the note op carries the stripped text
truncated to 240 characters.  The stored item id goes through
_safe_int(state.get("item_id")), modelled as str-then-int of the stored
integer. -/
def handle_note_message (state : Option UState) (text : String) (updOk : Bool) : NoteOutcome :=
  match state with
  | none => ⟨false, false, none, []⟩
  | some st =>
    if st.mode ≠ "await_note" then ⟨false, false, some st, []⟩
    else
      match _safe_int (st.item_id.map pyStrInt) none with
      | none => ⟨false, false, none, []⟩
      | some item_id =>
        if item_id = 0 then ⟨false, false, none, []⟩
        else
          let op := CartOp.setNote item_id st.variant_id (pyTake (pyStrip text) 240)
          if updOk then
            ⟨false, true, none,
              [Effect.updateCart [op], Effect.sendCartSummary "📝 Note saved.\n"]⟩
          else ⟨true, false, some st, [Effect.updateCart [op]]⟩

/-- The text-message branch of inbound for one sender: the note hook first;
if it raises, the webhook catch-all apologises and acknowledges, leaving the
state store untouched; if it handled the message, routing is skipped;
otherwise the message goes to _route_text (whose effects are passed in). -/
def inboundTextStep (state : Option UState) (text : String) (updOk : Bool)
    (routeEffects : List Effect) : Option UState × List Effect :=
  let r := handle_note_message state text updOk
  if r.raised then
    (r.state, r.effects ++ [Effect.sendText "Sorry, something went wrong. Please try again."])
  else if r.handled then (r.state, r.effects)
  else (r.state, r.effects ++ routeEffects)

/-! ### Lemmas about the numeral machinery -/

theorem digVal_digitChar {n : Nat} (h : n < 10) : digVal (digitChar n) = n := by
  interval_cases n <;> decide

theorem digitChar_isDigit {n : Nat} (h : n < 10) : (digitChar n).isDigit = true := by
  interval_cases n <;> decide

theorem natDigitsAux_spec : ∀ (fuel n : Nat), n < fuel →
    natDigitsAux fuel n ≠ [] ∧ (∀ c ∈ natDigitsAux fuel n, c.isDigit = true) ∧
      digitsVal (natDigitsAux fuel n) = n := by
  intro fuel
  induction fuel with
  | zero => intro n h; omega
  | succ f ih =>
    intro n h
    by_cases h10 : n < 10
    · refine ⟨by simp [natDigitsAux, h10], ?_, ?_⟩
      · intro c hc
        simp only [natDigitsAux, if_pos h10, List.mem_singleton] at hc
        subst hc
        exact digitChar_isDigit h10
      · simp [natDigitsAux, h10, digitsVal, digVal_digitChar h10]
    · have hdiv : n / 10 < n := Nat.div_lt_self (by omega) (by omega)
      have hn : n / 10 < f := by omega
      obtain ⟨ihne, ihdig, ihval⟩ := ih (n / 10) hn
      refine ⟨by simp [natDigitsAux, h10], ?_, ?_⟩
      · intro c hc
        simp only [natDigitsAux, if_neg h10] at hc
        rcases List.mem_append.mp hc with hm | hm
        · exact ihdig c hm
        · rw [List.mem_singleton] at hm
          subst hm
          exact digitChar_isDigit (Nat.mod_lt _ (by omega))
      · simp only [natDigitsAux, if_neg h10]
        unfold digitsVal at ihval ⊢
        rw [List.foldl_append, ihval]
        simp [digVal_digitChar (show n % 10 < 10 from Nat.mod_lt _ (by omega))]
        omega

theorem natDigits_ne_nil (n : Nat) : natDigits n ≠ [] :=
  (natDigitsAux_spec (n + 1) n (Nat.lt_succ_self n)).1

theorem natDigits_all_digit (n : Nat) : ∀ c ∈ natDigits n, c.isDigit = true :=
  (natDigitsAux_spec (n + 1) n (Nat.lt_succ_self n)).2.1

theorem digitsVal_natDigits (n : Nat) : digitsVal (natDigits n) = n :=
  (natDigitsAux_spec (n + 1) n (Nat.lt_succ_self n)).2.2

theorem noConsecUnderscore_of_digits :
    ∀ (cs : List Char), (∀ c ∈ cs, c.isDigit = true) → noConsecUnderscore cs = true
  | [], _ => rfl
  | [_], _ => rfl
  | c :: d :: rest, h => by
    have hc : c.isDigit = true := h c (by simp)
    have hcu : c ≠ '_' := by rintro rfl; exact absurd hc (by decide)
    have hrec := noConsecUnderscore_of_digits (d :: rest)
      (fun x hx => h x (List.mem_cons_of_mem _ hx))
    simp [noConsecUnderscore, hcu, hrec]

theorem pyDigits?_of_all_digits {cs : List Char} (hne : cs ≠ [])
    (hall : ∀ c ∈ cs, c.isDigit = true) : pyDigits? cs = some (digitsVal cs) := by
  have hhead : cs.head?.any Char.isDigit = true := by
    cases cs with
    | nil => exact absurd rfl hne
    | cons c rest => simpa using hall c (by simp)
  have hlast : cs.getLast?.any Char.isDigit = true := by
    rw [List.getLast?_eq_getLast cs hne]
    simpa using hall _ (List.getLast_mem hne)
  have hnc : noConsecUnderscore cs = true := noConsecUnderscore_of_digits cs hall
  have hall2 : cs.all (fun c => c.isDigit || c = '_') = true := by
    rw [List.all_eq_true]
    intro c hc
    simp [hall c hc]
  have hempty : cs.isEmpty = false := by
    cases cs with
    | nil => exact absurd rfl hne
    | cons c rest => rfl
  unfold pyDigits?
  rw [if_pos (by simp [hempty, hhead, hlast, hnc, hall2])]
  rw [List.filter_eq_self.mpr hall]

theorem pyWs_eq_false_of_isDigit {c : Char} (h : c.isDigit = true) : pyWs c = false := by
  have h1 : c ≠ ' ' := by rintro rfl; exact absurd h (by decide)
  have h2 : c ≠ '\t' := by rintro rfl; exact absurd h (by decide)
  have h3 : c ≠ '\r' := by rintro rfl; exact absurd h (by decide)
  have h4 : c ≠ '\n' := by rintro rfl; exact absurd h (by decide)
  simp [pyWs, Char.isWhitespace, h1, h2, h3, h4]

theorem dropWhile_eq_self_of_head {p : Char → Bool} {cs : List Char}
    (h : ∀ c, cs.head? = some c → p c = false) : cs.dropWhile p = cs := by
  cases cs with
  | nil => rfl
  | cons c rest => simp [List.dropWhile_cons, h c rfl]

theorem stripChars_eq_self {cs : List Char}
    (h1 : ∀ c, cs.head? = some c → pyWs c = false)
    (h2 : ∀ c, cs.getLast? = some c → pyWs c = false) : stripChars cs = cs := by
  unfold stripChars
  rw [dropWhile_eq_self_of_head h1]
  rw [dropWhile_eq_self_of_head (fun c hc => h2 c (by rwa [List.head?_reverse] at hc))]
  exact List.reverse_reverse cs

theorem natDigits_cons (n : Nat) : ∃ d rest, natDigits n = d :: rest := by
  rcases hd : natDigits n with _ | ⟨d, rest⟩
  · exact absurd hd (natDigits_ne_nil _)
  · exact ⟨d, rest, rfl⟩

theorem pyStrInt_data (i : Int) :
    (pyStrInt i).data = if i < 0 then '-' :: natDigits i.natAbs else natDigits i.toNat := by
  unfold pyStrInt pyStrNat
  split <;> rfl

theorem natDigits_getLast_digit (n : Nat) :
    ∀ c, (natDigits n).getLast? = some c → c.isDigit = true := by
  intro c hc
  rw [List.getLast?_eq_getLast _ (natDigits_ne_nil n), Option.some.injEq] at hc
  subst hc
  exact natDigits_all_digit n _ (List.getLast_mem (natDigits_ne_nil n))

theorem natDigits_head_digit (n : Nat) :
    ∀ c, (natDigits n).head? = some c → c.isDigit = true := by
  intro c hc
  obtain ⟨d, rest, hd⟩ := natDigits_cons n
  rw [hd, List.head?_cons, Option.some.injEq] at hc
  subst hc
  exact natDigits_all_digit n d (by rw [hd]; exact List.mem_cons_self d rest)

theorem stripChars_pyStrInt (i : Int) : stripChars (pyStrInt i).data = (pyStrInt i).data := by
  rw [pyStrInt_data]
  by_cases h : i < 0
  · rw [if_pos h]
    obtain ⟨d, rest, hd⟩ := natDigits_cons i.natAbs
    apply stripChars_eq_self
    · intro c hc
      rw [List.head?_cons, Option.some.injEq] at hc
      subst hc
      decide
    · intro c hc
      rw [hd, List.getLast?_cons_cons, ← hd] at hc
      exact pyWs_eq_false_of_isDigit (natDigits_getLast_digit i.natAbs c hc)
  · rw [if_neg h]
    apply stripChars_eq_self
    · intro c hc
      exact pyWs_eq_false_of_isDigit (natDigits_head_digit i.toNat c hc)
    · intro c hc
      exact pyWs_eq_false_of_isDigit (natDigits_getLast_digit i.toNat c hc)

theorem pyStrInt_head (i : Int) :
    ∃ c rest, (pyStrInt i).data = c :: rest ∧ (c = '-' ∨ c.isDigit = true) := by
  rw [pyStrInt_data]
  by_cases h : i < 0
  · exact ⟨'-', natDigits i.natAbs, by rw [if_pos h], Or.inl rfl⟩
  · rw [if_neg h]
    obtain ⟨d, rest, hd⟩ := natDigits_cons i.toNat
    exact ⟨d, rest, hd, Or.inr (natDigits_head_digit i.toNat d (by rw [hd]; rfl))⟩

theorem pyInt?_pyStrInt (i : Int) : pyInt? (pyStrInt i) = some i := by
  unfold pyInt?
  rw [stripChars_pyStrInt, pyStrInt_data]
  by_cases h : i < 0
  · rw [if_pos h]
    rw [if_pos (by rw [List.head?_cons])]
    simp only [List.tail_cons]
    rw [pyDigits?_of_all_digits (natDigits_ne_nil _) (natDigits_all_digit _)]
    rw [digitsVal_natDigits]
    simp only [Option.map_some', Option.some.injEq, Int.ofNat_eq_coe]
    omega
  · rw [if_neg h]
    have hm : ∀ (b : Char), b.isDigit = false → ¬ (natDigits i.toNat).head? = some b := by
      intro b hb hcontra
      exact absurd (natDigits_head_digit i.toNat b hcontra) (by simp [hb])
    rw [if_neg (hm '-' (by decide)), if_neg (hm '+' (by decide))]
    rw [pyDigits?_of_all_digits (natDigits_ne_nil _) (natDigits_all_digit _),
      digitsVal_natDigits]
    simp only [Option.map_some', Option.some.injEq, Int.ofNat_eq_coe]
    omega

theorem pyStrInt_ne_sentinels (i : Int) :
    pyStrInt i ≠ "" ∧ pyStrInt i ≠ "None" ∧ pyStrInt i ≠ "null" := by
  obtain ⟨c, rest, hdata, hc⟩ := pyStrInt_head i
  have hcN : c ≠ 'N' := by
    rcases hc with h | h
    · rintro rfl; cases h
    · rintro rfl; exact absurd h (by decide)
  have hcn : c ≠ 'n' := by
    rcases hc with h | h
    · rintro rfl; cases h
    · rintro rfl; exact absurd h (by decide)
  refine ⟨?_, ?_, ?_⟩ <;> intro heq
  · have : (pyStrInt i).data = "".data := by rw [heq]
    rw [hdata] at this
    cases this
  · have : (pyStrInt i).data = "None".data := by rw [heq]
    rw [hdata] at this
    exact hcN (by injection this with h1 _)
  · have : (pyStrInt i).data = "null".data := by rw [heq]
    rw [hdata] at this
    exact hcn (by injection this with h1 _)

theorem pyStrip_pyStrInt (i : Int) : pyStrip (pyStrInt i) = pyStrInt i := by
  unfold pyStrip
  rw [stripChars_pyStrInt]

theorem _safe_int_pyStrInt (i : Int) : _safe_int (some (pyStrInt i)) none = some i := by
  obtain ⟨h1, h2, h3⟩ := pyStrInt_ne_sentinels i
  simp [_safe_int, pyStrip_pyStrInt, pyInt?_pyStrInt, h1, h2, h3]

/-! ### Lemmas about the split worker -/

theorem splitSepAux_nil (sep : Char) (n : Nat) (acc : List Char) :
    splitSepAux sep [] n acc = [acc.reverse] := rfl

theorem splitSepAux_cons_sep (sep : Char) (ys acc : List Char) (m : Nat) :
    splitSepAux sep (sep :: ys) (m + 1) acc = acc.reverse :: splitSepAux sep ys m [] := by
  simp [splitSepAux]

theorem splitSepAux_append_of_not_mem (sep : Char) (xs : List Char) :
    ∀ (ys acc : List Char) (n : Nat), sep ∉ xs →
      splitSepAux sep (xs ++ ys) n acc = splitSepAux sep ys n (xs.reverse ++ acc) := by
  induction xs with
  | nil => intro ys acc n _; simp
  | cons x xs ih =>
    intro ys acc n h
    have hx : ¬ x = sep := by
      intro e
      exact h (by simp [e])
    simp only [List.cons_append, splitSepAux, if_neg hx, List.append_eq]
    rw [ih ys (x :: acc) n (fun hm => h (List.mem_cons_of_mem _ hm))]
    simp

theorem splitSepAux_of_not_mem (sep : Char) (xs acc : List Char) (n : Nat) (h : sep ∉ xs) :
    splitSepAux sep xs n acc = [acc.reverse ++ xs] := by
  have h2 := splitSepAux_append_of_not_mem sep xs [] acc n h
  rw [splitSepAux_nil] at h2
  simpa using h2

theorem splitSepAux_five (sep : Char) (c0 c1 c2 c3 c4 : List Char)
    (h0 : sep ∉ c0) (h1 : sep ∉ c1) (h2 : sep ∉ c2) (h3 : sep ∉ c3) (h4 : sep ∉ c4) :
    splitSepAux sep (c0 ++ sep :: (c1 ++ sep :: (c2 ++ sep :: (c3 ++ sep :: c4)))) 4 [] =
      [c0, c1, c2, c3, c4] := by
  rw [splitSepAux_append_of_not_mem sep c0 _ _ _ h0, splitSepAux_cons_sep]
  rw [splitSepAux_append_of_not_mem sep c1 _ _ _ h1, splitSepAux_cons_sep]
  rw [splitSepAux_append_of_not_mem sep c2 _ _ _ h2, splitSepAux_cons_sep]
  rw [splitSepAux_append_of_not_mem sep c3 _ _ _ h3, splitSepAux_cons_sep]
  rw [splitSepAux_of_not_mem sep c4 _ _ h4]
  simp

/-! ### Codec lemmas -/

theorem pyStrInt_getLast_digit (i : Int) :
    ∀ c, (pyStrInt i).data.getLast? = some c → c.isDigit = true := by
  rw [pyStrInt_data]
  by_cases h : i < 0
  · rw [if_pos h]
    intro c hc
    obtain ⟨d, rest, hd⟩ := natDigits_cons i.natAbs
    rw [hd, List.getLast?_cons_cons, ← hd] at hc
    exact natDigits_getLast_digit i.natAbs c hc
  · rw [if_neg h]
    exact natDigits_getLast_digit i.toNat

theorem pyStrInt_data_ne_nil (i : Int) : (pyStrInt i).data ≠ [] := by
  rw [pyStrInt_data]
  by_cases h : i < 0
  · rw [if_pos h]; simp
  · rw [if_neg h]; exact natDigits_ne_nil _

theorem pipe_not_in_pyStrInt (i : Int) : '|' ∉ (pyStrInt i).data := by
  rw [pyStrInt_data]
  intro hm
  by_cases h : i < 0
  · rw [if_pos h] at hm
    rcases List.mem_cons.mp hm with h1 | h1
    · cases h1
    · exact absurd (natDigits_all_digit _ _ h1) (by decide)
  · rw [if_neg h] at hm
    exact absurd (natDigits_all_digit _ _ hm) (by decide)

theorem getLast?_append_right {α : Type} (X Y : List α) (hy : Y ≠ []) :
    (X ++ Y).getLast? = Y.getLast? := by
  rw [List.getLast?_append]
  cases Y with
  | nil => exact absurd rfl hy
  | cons y ys =>
    rw [List.getLast?_eq_getLast _ (by simp), Option.or_some]

theorem getLast?_chunk (X Y : List Char) (h : Y ≠ []) :
    (X ++ '|' :: Y).getLast? = Y.getLast? := by
  rw [getLast?_append_right X ('|' :: Y) (by simp)]
  cases Y with
  | nil => exact absurd rfl h
  | cons y ys => rw [List.getLast?_cons_cons]

theorem cmd_token_data (action : String) (i v a : Int) :
    (_cmd action (some i) (some v) (Sum.inl a)).data =
      "CART".data ++ '|' :: (action.data ++ '|' :: ((pyStrInt i).data ++ '|' ::
        ((pyStrInt v).data ++ '|' :: (pyStrInt a).data))) := by
  show ("CART|" ++ action ++ "|" ++ pyStrInt i ++ "|" ++ pyStrInt v ++ "|" ++ pyStrInt a).data = _
  simp [String.data_append, List.append_assoc]

theorem cmd_token_strip (action : String) (i v a : Int)
    (hlast : ∀ c, (_cmd action (some i) (some v) (Sum.inl a)).data.getLast? = some c →
      pyWs c = false) :
    pyStrip (_cmd action (some i) (some v) (Sum.inl a)) =
      _cmd action (some i) (some v) (Sum.inl a) := by
  have hhead : ∀ c, (_cmd action (some i) (some v) (Sum.inl a)).data.head? = some c →
      pyWs c = false := by
    intro c hc
    rw [cmd_token_data] at hc
    rw [show ("CART" : String).data = ['C', 'A', 'R', 'T'] from rfl] at hc
    simp only [List.cons_append, List.head?_cons, Option.some.injEq] at hc
    subst hc
    decide
  have h2 : stripChars (_cmd action (some i) (some v) (Sum.inl a)).data =
      (_cmd action (some i) (some v) (Sum.inl a)).data :=
    stripChars_eq_self hhead hlast
  show (⟨stripChars (_cmd action (some i) (some v) (Sum.inl a)).data⟩ : String) = _
  rw [h2]

/-- C7 as stated: decoding an encoded token recovers the action verbatim and
the three numeric fields exactly, with the ok flag set, whenever the action
has no pipe character and the item and variant ids are non-negative. -/
theorem c7_codec_round_trip (action : String) (i v a : Int)
    (hp : '|' ∉ action.data) (hi : 0 ≤ i) (hv : 0 ≤ v) :
    _parse_cmd (_cmd action (some i) (some v) (Sum.inl a)) =
      (true, some action, some i, some v, some (Sum.inl a)) := by
  have hda := pyStrInt_data_ne_nil a
  have hlast : ∀ c, (_cmd action (some i) (some v) (Sum.inl a)).data.getLast? = some c →
      pyWs c = false := by
    intro c hc
    rw [cmd_token_data] at hc
    rw [getLast?_chunk _ _ (by simp), getLast?_chunk _ _ (by simp),
      getLast?_chunk _ _ (by simp), getLast?_chunk _ _ hda] at hc
    exact pyWs_eq_false_of_isDigit (pyStrInt_getLast_digit a c hc)
  have hsplit : pySplitCh '|' 4 (pyStrip (_cmd action (some i) (some v) (Sum.inl a))) =
      ["CART", action, pyStrInt i, pyStrInt v, pyStrInt a] := by
    rw [cmd_token_strip action i v a hlast]
    unfold pySplitCh
    rw [cmd_token_data]
    rw [splitSepAux_five '|' _ _ _ _ _ (by decide) hp (pipe_not_in_pyStrInt i)
      (pipe_not_in_pyStrInt v) (pipe_not_in_pyStrInt a)]
    rfl
  obtain ⟨hs1, hs2, _⟩ := pyStrInt_ne_sentinels a
  unfold _parse_cmd
  rw [hsplit]
  simp [hs1, hs2, _safe_int_pyStrInt]

/-- Closed witness for C7: a concrete round trip through the codec, with a
negative arg exercising the sign handling. -/
theorem c7_codec_round_trip_witness :
    ('|' ∉ ("EDIT_PICK" : String).data ∧ (0 : Int) ≤ 7 ∧ (0 : Int) ≤ 2) ∧
      _parse_cmd (_cmd "EDIT_PICK" (some 7) (some 2) (Sum.inl (-3))) =
        (true, some "EDIT_PICK", some 7, some 2, some (Sum.inl (-3))) :=
  ⟨⟨by decide, by decide, by decide⟩,
    c7_codec_round_trip "EDIT_PICK" 7 2 (-3) (by decide) (by decide) (by decide)⟩

/-- C3 counterexample: a token with six pipe-delimited fields AND a
non-numeric item field decodes with ok = true (item id None, the pipe-bearing
tail folded into the arg slot as a failed parse), refuting both fail-closed
clauses of the claim. -/
theorem c3_counterexample :
    _parse_cmd "CART|A|x|2|3|4" = (true, some "A", none, some 2, none) := by decide

/-- C3 amended: the decoder returns ok = false exactly when the maxsplit-4
pipe split of the stripped input does not have 5 fields (fewer than 4 pipes)
or the first field is not CART; non-numeric numeric fields decode to None
with ok = true, and extra pipes are folded into the arg field. -/
theorem c3_amended_fail_closed (s : String) :
    (_parse_cmd s).1 = true ↔
      ((pySplitCh '|' 4 (pyStrip s)).length = 5 ∧
        (pySplitCh '|' 4 (pyStrip s)).head? = some "CART") := by
  unfold _parse_cmd
  rcases hp : pySplitCh '|' 4 (pyStrip s) with _ | ⟨t, _ | ⟨a, _ | ⟨b, _ | ⟨c, _ | ⟨d, _ | ⟨e, rest⟩⟩⟩⟩⟩⟩
  · simp
  · simp
  · simp
  · simp
  · simp
  · by_cases ht : t = "CART"
    · subst ht; simp
    · simp [ht]
  · simp

/-! ### Claim theorems C1, C5, C2 -/

/-- C1: a concrete three-claim run of _claim_once on one
(kind, sender, message id) triple with TTL 10: the first claim (time 100)
returns true and the second (time 105, inside the TTL) returns false, as the
claim states; but the third claim (time 200, well after the expiry 110)
STILL returns false, because the membership test never consults the stored
expiry and the occasional sweep does not run on a store of size 1 (1 mod 100
is not 0).  This contradicts the after-TTL clause of the claim and the
docstring of _claim_once (true only the first time seen DURING TTL). -/
theorem c1_dedup_ttl_eval :
    ((_claim_once "message" "u1" (some "m1") 0 100 10 []).1 = true) ∧
      ((_claim_once "message" "u1" (some "m1") 0 105 10
        (_claim_once "message" "u1" (some "m1") 0 100 10 []).2).1 = false) ∧
      ((_claim_once "message" "u1" (some "m1") 0 200 10
        (_claim_once "message" "u1" (some "m1") 0 105 10
          (_claim_once "message" "u1" (some "m1") 0 100 10 []).2).2).1 = false) := by
  refine ⟨by decide, by decide, by decide⟩

/-- C5: whenever the classifier attempt fails at any stage (transport error,
missing tool call, JSON parse failure, or a candidate that fails the pydantic
enum validation), llm_route returns exactly the sentinel ParsedOrder with
action SMALL_TALK, no items, no clarifications, and the generic retry
response text; being a total function of the attempt, it propagates no
exception. -/
theorem c5_classifier_fallback (att : ClassifierAttempt)
    (h : ∀ p, att = ClassifierAttempt.parsed p → validParsedOrder p = false) :
    llm_route att = fallbackParsedOrder ∧
      (llm_route att).action = "SMALL_TALK" ∧
      (llm_route att).items = [] ∧
      (llm_route att).clarifications = [] ∧
      (llm_route att).response_text =
        some "Sorry, I didn\x27t catch that. Could you try again or ask for the menu?" := by
  have heq : llm_route att = fallbackParsedOrder := by
    cases att with
    | parsed p => simp [llm_route, h p rfl]
    | transportError => rfl
    | noToolCall => rfl
    | badJson => rfl
  rw [heq]
  exact ⟨rfl, rfl, rfl, rfl, rfl⟩

/-- Closed witness for C5 at the transport-error stage. -/
theorem c5_classifier_fallback_witness :
    llm_route ClassifierAttempt.transportError = fallbackParsedOrder ∧
      (llm_route ClassifierAttempt.transportError).action = "SMALL_TALK" ∧
      (llm_route ClassifierAttempt.transportError).items = [] ∧
      (llm_route ClassifierAttempt.transportError).clarifications = [] ∧
      (llm_route ClassifierAttempt.transportError).response_text =
        some "Sorry, I didn\x27t catch that. Could you try again or ask for the menu?" :=
  c5_classifier_fallback ClassifierAttempt.transportError (fun _ h => nomatch h)

/-- The classifier tier with an empty reply always lands in the final else of
the dispatch chain. -/
theorem dispatchClassifier_empty (env : Env) (text : String) :
    dispatchClassifier env text "" =
      [Effect.sendText "Got it! Anything else you\x27d like?", Effect.sendCartSummary ""] := by
  unfold dispatchClassifier
  simp only [show pyUpper "" = "" from rfl]
  simp only [show pyStartsWith "" "ADD " = false from by decide,
    show pyStartsWith "" "REMOVE " = false from by decide,
    show pyStartsWith "" "CHANGE " = false from by decide,
    show strContains "" "CART" = false from by decide,
    show strContains "" "MENU" = false from by decide,
    show strContains "" "CHECKOUT" = false from by decide,
    show strContains "" "YES" = false from by decide,
    show pyStartsWith "" "RECOMMEND" = false from by decide]
  simp

/-- Any text missing every fast-path rule reaches the classifier tier, whose
call raises TypeError (binding failure), leaving the empty reply and the
generic fallback. -/
theorem route_text_tier2_fallback (env : Env) (text : String)
    (h1 : kwHit (pyLower (pyStrip text)) checkoutTriggerWords = false)
    (h2 : pyStartsWith (pyLower (pyStrip text)) "status" = false)
    (h3 : kwHit (pyLower (pyStrip text)) cartViewWords = false) :
    _route_text env text =
      [Effect.llmCall false, Effect.sendText "Got it! Anything else you\x27d like?",
        Effect.sendCartSummary ""] := by
  have hbind : llmCallBindsOk = false := by decide
  simp only [_route_text]
  rw [if_neg (by simp [h1]), if_neg (by simp [h2]), if_neg (by simp [h3]), hbind]
  simp [dispatchClassifier_empty]

/-- C2: the router call llm_route(prompt, max_tokens=40, temperature=0.0)
cannot bind against llm_route(user_text, menu_snapshot, user_profile,
cart_snapshot, menu_text="..."), so it raises TypeError; the except-clause
empties the reply, and every text that reaches the classifier tier receives
the generic fallback text followed by the cart summary — no
classifier-derived branch (ADD/REMOVE/CHANGE/CART/MENU/CHECKOUT/RECOMMEND)
is ever taken on this path. -/
theorem c2_llm_call_type_error_fallback (env : Env) (text : String)
    (h1 : kwHit (pyLower (pyStrip text)) checkoutTriggerWords = false)
    (h2 : pyStartsWith (pyLower (pyStrip text)) "status" = false)
    (h3 : kwHit (pyLower (pyStrip text)) cartViewWords = false) :
    llmCallBindsOk = false ∧
      _route_text env text =
        [Effect.llmCall false, Effect.sendText "Got it! Anything else you\x27d like?",
          Effect.sendCartSummary ""] :=
  ⟨by decide, route_text_tier2_fallback env text h1 h2 h3⟩

/-- Closed witness for C2 on a concrete small-talk text. -/
theorem c2_llm_call_type_error_fallback_witness :
    (kwHit (pyLower (pyStrip "hello there")) checkoutTriggerWords = false ∧
      pyStartsWith (pyLower (pyStrip "hello there")) "status" = false ∧
      kwHit (pyLower (pyStrip "hello there")) cartViewWords = false) ∧
      (llmCallBindsOk = false ∧
        _route_text env0 "hello there" =
          [Effect.llmCall false, Effect.sendText "Got it! Anything else you\x27d like?",
            Effect.sendCartSummary ""]) :=
  ⟨⟨by decide, by decide, by decide⟩,
    c2_llm_call_type_error_fallback env0 "hello there" (by decide) (by decide) (by decide)⟩

/-! ### Claim theorems C9, C10, C4 -/

theorem llmCall_not_in_doCheckout (env : Env) (b : Bool) :
    Effect.llmCall b ∉ doCheckoutEffects env := by
  unfold doCheckoutEffects
  cases env.checkoutOk <;> simp

theorem llmCall_not_in_status (env : Env) (tl : String) (b : Bool) :
    Effect.llmCall b ∉ statusEffects env tl := by
  simp only [statusEffects]
  split
  · split <;> simp
  · simp

/-- C9: the deterministic rules run on the trimmed lowercased text in the
fixed order checkout keywords, then the status text, then cart-view
keywords; the first hit determines the whole effect list, and whenever any
of the three hits, the classifier tier is never entered (no llmCall effect
occurs). -/
theorem c9_fast_path_priority (env : Env) (text : String) :
    (kwHit (pyLower (pyStrip text)) checkoutTriggerWords = true →
      _route_text env text = doCheckoutEffects env) ∧
    (kwHit (pyLower (pyStrip text)) checkoutTriggerWords = false →
      pyStartsWith (pyLower (pyStrip text)) "status" = true →
      _route_text env text = statusEffects env (pyLower (pyStrip text))) ∧
    (kwHit (pyLower (pyStrip text)) checkoutTriggerWords = false →
      pyStartsWith (pyLower (pyStrip text)) "status" = false →
      kwHit (pyLower (pyStrip text)) cartViewWords = true →
      _route_text env text = [Effect.sendCartSummary ""]) ∧
    ((kwHit (pyLower (pyStrip text)) checkoutTriggerWords ||
        pyStartsWith (pyLower (pyStrip text)) "status" ||
        kwHit (pyLower (pyStrip text)) cartViewWords) = true →
      ∀ b, Effect.llmCall b ∉ _route_text env text) :=
  by
  refine ⟨?_, ?_, ?_, ?_⟩
  · intro hc
    simp only [_route_text]
    rw [if_pos (by simp [hc])]
  · intro hc hs
    simp only [_route_text]
    rw [if_neg (by simp [hc]), if_pos (by simp [hs])]
  · intro hc hs hv
    simp only [_route_text]
    rw [if_neg (by simp [hc]), if_neg (by simp [hs]), if_pos (by simp [hv])]
  · intro hor b
    by_cases hc : kwHit (pyLower (pyStrip text)) checkoutTriggerWords = true
    · simp only [_route_text]
      rw [if_pos (by simp [hc])]
      exact llmCall_not_in_doCheckout env b
    · by_cases hs : pyStartsWith (pyLower (pyStrip text)) "status" = true
      · simp only [_route_text]
        rw [if_neg (by simp [hc]), if_pos (by simp [hs])]
        exact llmCall_not_in_status env _ b
      · have ha : kwHit (pyLower (pyStrip text)) checkoutTriggerWords = false := by
          revert hc
          cases kwHit (pyLower (pyStrip text)) checkoutTriggerWords <;> simp
        have hb : pyStartsWith (pyLower (pyStrip text)) "status" = false := by
          revert hs
          cases pyStartsWith (pyLower (pyStrip text)) "status" <;> simp
        have hv : kwHit (pyLower (pyStrip text)) cartViewWords = true := by
          rw [ha, hb] at hor
          simpa using hor
        simp only [_route_text]
        rw [if_neg (by simp [ha]), if_neg (by simp [hb]), if_pos (by simp [hv])]
        simp

/-- Closed witness for C9: the checkout rule pre-empts everything. -/
theorem c9_fast_path_priority_witness :
    kwHit (pyLower (pyStrip "yes checkout please")) checkoutTriggerWords = true ∧
      _route_text env0 "yes checkout please" = doCheckoutEffects env0 :=
  ⟨by decide, (c9_fast_path_priority env0 "yes checkout please").1 (by decide)⟩

/-- C10 counterexample: a parsed intent with a non-empty clarifications list
exists (the schema admits it), yet on the classifier path the router sends
the generic fallback text and the cart summary — the clarification text is
never an outbound effect, because the classifier call raises TypeError
before any ParsedOrder can reach the routing logic.  This refutes the clause
that the clarification text is the only outbound effect. -/
theorem c10_counterexample :
    ({ action := "ASK_QUESTION",
        clarifications := ["Which burger — beef or chicken?"] } : ParsedOrder).clarifications
        ≠ [] ∧
      _route_text env0 "add a burger" =
        [Effect.llmCall false, Effect.sendText "Got it! Anything else you\x27d like?",
          Effect.sendCartSummary ""] ∧
      Effect.sendText "Which burger — beef or chicken?" ∉ _route_text env0 "add a burger" := by
  refine ⟨by decide, by decide, by decide⟩

/-- C10 amended: for every parsed intent with non-empty clarifications and
every text on the classifier path, no cart-mutating backend call is issued —
but not because the router halts on the clarification: the classifier result
never reaches the router (TypeError at the call), so the clarification text
is never sent (unless it coincides with the hardcoded fallback text); the
outbound effects are the generic fallback text and the cart summary. -/
theorem c10_clarification_no_mutation (env : Env) (text : String) (p : ParsedOrder)
    (hcl : p.clarifications ≠ [])
    (h1 : kwHit (pyLower (pyStrip text)) checkoutTriggerWords = false)
    (h2 : pyStartsWith (pyLower (pyStrip text)) "status" = false)
    (h3 : kwHit (pyLower (pyStrip text)) cartViewWords = false) :
    (∀ e ∈ _route_text env text, cartMutating e = false) ∧
      (∀ c ∈ p.clarifications, c ≠ "Got it! Anything else you\x27d like?" →
        Effect.sendText c ∉ _route_text env text) := by
  have hroute := route_text_tier2_fallback env text h1 h2 h3
  rw [hroute]
  constructor
  · intro e he
    rcases List.mem_cons.mp he with h | h
    · rw [h]; rfl
    rcases List.mem_cons.mp h with h' | h'
    · rw [h']; rfl
    rcases List.mem_cons.mp h' with h'' | h''
    · rw [h'']; rfl
    · cases h''
  · intro c _ hne hmem
    rcases List.mem_cons.mp hmem with h | h
    · cases h
    rcases List.mem_cons.mp h with h' | h'
    · exact hne (by injection h')
    rcases List.mem_cons.mp h' with h'' | h''
    · cases h''
    · cases h''

/-- Closed witness for C10 amended. -/
theorem c10_clarification_no_mutation_witness :
    (({ action := "EDIT_SET_QTY", clarifications := ["Which size?"] } : ParsedOrder).clarifications
        ≠ [] ∧
      kwHit (pyLower (pyStrip "make it bigger")) checkoutTriggerWords = false ∧
      pyStartsWith (pyLower (pyStrip "make it bigger")) "status" = false ∧
      kwHit (pyLower (pyStrip "make it bigger")) cartViewWords = false) ∧
      ((∀ e ∈ _route_text env0 "make it bigger", cartMutating e = false) ∧
        (∀ c ∈ ({ action := "EDIT_SET_QTY", clarifications := ["Which size?"] } :
              ParsedOrder).clarifications,
          c ≠ "Got it! Anything else you\x27d like?" →
          Effect.sendText c ∉ _route_text env0 "make it bigger")) :=
  ⟨⟨by decide, by decide, by decide, by decide⟩,
    c10_clarification_no_mutation env0 "make it bigger"
      { action := "EDIT_SET_QTY", clarifications := ["Which size?"] }
      (by decide) (by decide) (by decide) (by decide)⟩

/-- C4: the note-capture flow evaluated at a sender in await_note mode with
target item 5, variant 2.  When update_cart succeeds, the set_note op carries
the stripped, 240-truncated body and the state clears (first two conjuncts,
matching the claim).  When update_cart raises, the clear is never reached:
handle_note_message leaves the state in await_note mode and the exception
surfaces in the webhook catch-all, which apologises — the state survives one
full inbound processing step in a non-none mode, contradicting the
unconditional-clear clause of the claim. -/
theorem c4_note_state_eval :
    (handle_note_message (some ⟨"await_note", some 5, some 2⟩)
        "  extra spicy please  " true).state = none ∧
      (handle_note_message (some ⟨"await_note", some 5, some 2⟩)
          "  extra spicy please  " true).effects =
        [Effect.updateCart [CartOp.setNote 5 (some 2) "extra spicy please"],
          Effect.sendCartSummary "📝 Note saved.\n"] ∧
      (handle_note_message (some ⟨"await_note", some 5, some 2⟩)
          "  extra spicy please  " false).state = some ⟨"await_note", some 5, some 2⟩ ∧
      inboundTextStep (some ⟨"await_note", some 5, some 2⟩) "  extra spicy please  " false []
        = (some ⟨"await_note", some 5, some 2⟩,
          [Effect.updateCart [CartOp.setNote 5 (some 2) "extra spicy please"],
            Effect.sendText "Sorry, something went wrong. Please try again."]) := by
  refine ⟨by decide, by decide, by decide, by decide⟩

/-! ### Claim theorems C6, C8 -/

/-- C6 counterexample: a one-item catalog (Burger, 500, no tags).  The text
veg popular triggers the dietary filter, which empties the pool, and the
popularity keywords; the popular filter matches zero items; the catalog is
non-empty — yet the result is empty (the user gets the nothing-matches
reply), refuting the claim that the engine never returns an empty
recommendation set when the catalog is non-empty. -/
theorem c6_counterexample :
    buildRecItems [⟨"Mains", [⟨1, "Burger", 500, []⟩]⟩] ≠ [] ∧
      kwHit (pyLower "veg popular" ++ pyLower "") popularKeywords = true ∧
      (prePopularityPool (buildRecItems [⟨"Mains", [⟨1, "Burger", 500, []⟩]⟩])
        (pyLower "veg popular") (pyLower "")).filter (fun i => i.popular) = [] ∧
      recommendFinal (buildRecItems [⟨"Mains", [⟨1, "Burger", 500, []⟩]⟩])
        "veg popular" "" = [] := by
  refine ⟨by decide, by decide, by decide, by decide⟩

/-- C6 amended: when the popularity keywords are detected and the popular
filter matches zero items of the candidate pool (the pool left by the
dietary, spice and budget filters), the result is the 6 cheapest items of
that pool; it is non-empty whenever that pool is non-empty (a non-empty
catalog does not suffice, as earlier filters may empty the pool). -/
theorem c6_popularity_fallback (items : List RecItem) (userText aiHint : String)
    (hkw : kwHit (pyLower userText ++ pyLower aiHint) popularKeywords = true)
    (hpop : (prePopularityPool items (pyLower userText) (pyLower aiHint)).filter
        (fun i => i.popular) = [])
    (hne : prePopularityPool items (pyLower userText) (pyLower aiHint) ≠ []) :
    recommendFinal items userText aiHint =
      ((prePopularityPool items (pyLower userText) (pyLower aiHint)).insertionSort
        priceLE).take 6 ∧
      recommendFinal items userText aiHint ≠ [] := by
  have hstep : popularityStep (prePopularityPool items (pyLower userText) (pyLower aiHint))
      (pyLower userText) (pyLower aiHint) =
      ((prePopularityPool items (pyLower userText) (pyLower aiHint)).insertionSort
        priceLE).take 6 := by
    unfold popularityStep
    rw [if_pos hkw]
    simp [hpop]
  set pool := prePopularityPool items (pyLower userText) (pyLower aiHint) with hpooldef
  set L := (pool.insertionSort priceLE).take 6 with hLdef
  have hnonpop : ∀ x ∈ pool, x.popular = false := by
    intro x hx
    have h2 := List.filter_eq_nil_iff.mp hpop x hx
    simpa using h2
  have hLmem : ∀ x ∈ L, x ∈ pool := by
    intro x hx
    have h2 := (List.take_sublist 6 (pool.insertionSort priceLE)).subset hx
    exact (List.perm_insertionSort priceLE pool).mem_iff.mp h2
  have hsorted : List.Sorted priceLE L := by
    apply List.Pairwise.sublist (List.take_sublist 6 _)
    exact List.sorted_insertionSort priceLE pool
  have hsortedF : List.Sorted finalLE L := by
    apply List.Pairwise.imp_of_mem ?_ hsorted
    intro a b ha hb hab
    have hpa : popRank a = 0 := by simp [popRank, hnonpop a (hLmem a ha)]
    have hpb : popRank b = 0 := by simp [popRank, hnonpop b (hLmem b hb)]
    exact Or.inr ⟨hpa.trans hpb.symm, hab⟩
  have hfinal : L.insertionSort finalLE = L := List.Sorted.insertionSort_eq hsortedF
  have hmain : recommendFinal items userText aiHint = L := by
    simp only [recommendFinal]
    rw [← hpooldef, hstep, hfinal, hLdef, List.take_take]
    norm_num
  have hLne : L ≠ [] := by
    rw [hLdef]
    intro hcontra
    have hlen := congrArg List.length hcontra
    rw [List.length_take, List.length_insertionSort] at hlen
    simp only [List.length_nil] at hlen
    have hp0 : pool.length = 0 := by omega
    exact hne (List.length_eq_zero.mp hp0)
  exact ⟨hmain, hmain ▸ hLne⟩

/-- Closed witness for C6 amended: a two-item catalog with no popular item;
the fallback returns both, cheapest first. -/
theorem c6_popularity_fallback_witness :
    (kwHit (pyLower "popular" ++ pyLower "") popularKeywords = true ∧
      (prePopularityPool [⟨"Salad", 300, ["vegetarian"], false⟩, ⟨"Burger", 500, [], false⟩]
        (pyLower "popular") (pyLower "")).filter (fun i => i.popular) = [] ∧
      prePopularityPool [⟨"Salad", 300, ["vegetarian"], false⟩, ⟨"Burger", 500, [], false⟩]
        (pyLower "popular") (pyLower "") ≠ []) ∧
      (recommendFinal [⟨"Salad", 300, ["vegetarian"], false⟩, ⟨"Burger", 500, [], false⟩]
          "popular" "" =
        ((prePopularityPool [⟨"Salad", 300, ["vegetarian"], false⟩, ⟨"Burger", 500, [], false⟩]
          (pyLower "popular") (pyLower "")).insertionSort priceLE).take 6 ∧
        recommendFinal [⟨"Salad", 300, ["vegetarian"], false⟩, ⟨"Burger", 500, [], false⟩]
          "popular" "" ≠ []) :=
  ⟨⟨by decide, by decide, by decide⟩,
    c6_popularity_fallback [⟨"Salad", 300, ["vegetarian"], false⟩, ⟨"Burger", 500, [], false⟩]
      "popular" "" (by decide) (by decide) (by decide)⟩

/-- C8 counterexample: text under 100 deals 9 (no hint).  The code
concatenates every digit character, giving budget 1009, while the longest
contiguous digit run of the claim gives 100; the 500-priced item exceeds the
claimed budget but survives the filter, so the claim that exactly the items
above the longest-run budget are excluded is false. -/
theorem c8_counterexample :
    extractBudget ("under 100 deals 9" ++ "") = some 1009 ∧
      budgetSpecLongestRun ("under 100 deals 9" ++ "") = some 100 ∧
      budgetStep [⟨"Steak", 500, [], false⟩] "under 100 deals 9" "" =
        [⟨"Steak", 500, [], false⟩] := by
  refine ⟨by decide, by decide, by decide⟩

/-- C8 amended: when a budget keyword occurs in the lowered user text and
text+hint contains at least one digit, the budget is the integer formed by
concatenating every digit character of text+hint in order, and exactly the
items priced above that value are excluded from the pool (order preserved);
without any digit the filter is skipped. -/
theorem c8_budget_filter (recs : List RecItem) (tl hint : String) (b : Int)
    (hkw : kwHit tl budgetKeywords = true)
    (hb : extractBudget (tl ++ hint) = some b) :
    budgetStep recs tl hint = recs.filter (fun i => i.price ≤ b) ∧
      ∀ i ∈ recs, (i ∈ budgetStep recs tl hint ↔ i.price ≤ b) := by
  have heq : budgetStep recs tl hint = recs.filter (fun i => i.price ≤ b) := by
    unfold budgetStep
    rw [if_pos hkw, hb]
  refine ⟨heq, ?_⟩
  intro i hi
  rw [heq]
  simp [List.mem_filter, hi]

/-- Closed witness for C8 amended: budget 800 keeps the 300 item and drops
the 900 item. -/
theorem c8_budget_filter_witness :
    (kwHit "under 800" budgetKeywords = true ∧
      extractBudget ("under 800" ++ "") = some 800) ∧
      budgetStep [⟨"Salad", 300, [], false⟩, ⟨"Lobster", 900, [], false⟩] "under 800" "" =
        [⟨"Salad", 300, [], false⟩] :=
  ⟨⟨by decide, by decide⟩,
    ((c8_budget_filter [⟨"Salad", 300, [], false⟩, ⟨"Lobster", 900, [], false⟩]
      "under 800" "" 800 (by decide) (by decide)).1).trans (by decide)⟩

end WhatsAppBot
